import Mathlib

/-!
Verification of the realtime-alert-system core against its specification.

The definitions below are a shallow embedding of the Go sources:
the alert entity and its state machine (cmd/api/main.go), the Redis-stream
event bus (internal/infrastructure/messaging/redis_stream.go), the event
envelope (internal/domain/event/event.go), the circuit breaker
(internal/infrastructure/circuitbreaker/circuitbreaker.go), the WebSocket
client send path (internal/presentation/websocket client file), the alert
repository queries (internal/infrastructure/database/alert_repository.go)
and the pagination value object (internal/domain/valueobject/pagination.go).

Wall-clock time (Go time.Time obtained from time.Now) is modelled as a
natural number passed explicitly to each operation that reads the clock.
Mutating Go methods that return an error are modelled as pure functions
returning the error option together with the possibly-updated receiver.
-/

set_option autoImplicit false

namespace AlertCore

/-- Wall-clock instants, modelling Go time.Time values. -/
abbrev Time := Nat

/-- Opaque identifiers (entity.ID, a UUID in the source). -/
abbrev UserId := Nat

/-! ### Alert entity (cmd/api/main.go)

The Go type AlertStatus is a string type; status values outside the four
declared constants are representable, which is why the state machine has
a catch-all not-active rejection.  We therefore keep statuses as strings. -/

/-- Status constant AlertStatusActive of the source. -/
def AlertStatusActive : String := "active"

/-- Status constant AlertStatusAcknowledged of the source. -/
def AlertStatusAcknowledged : String := "acknowledged"

/-- Status constant AlertStatusResolved of the source. -/
def AlertStatusResolved : String := "resolved"

/-- Status constant AlertStatusExpired of the source. -/
def AlertStatusExpired : String := "expired"

/-- Alert record, embedding the Go struct Alert field by field.
Metadata values (interface values in Go) are modelled as opaque strings. -/
structure Alert where
  id : Nat
  ruleId : Option Nat
  title : String
  message : String
  severity : String
  status : String
  source : String
  metadata : List (String × String)
  acknowledgedBy : Option UserId
  acknowledgedAt : Option Time
  resolvedBy : Option UserId
  resolvedAt : Option Time
  expiresAt : Option Time
  createdAt : Time
  updatedAt : Time
deriving DecidableEq, Repr

/-- Lifecycle rejection errors of the alert state machine
(ErrAlertAlreadyAcknowledged, ErrAlertAlreadyResolved, ErrAlertNotActive). -/
inductive AlertErr where
  | alreadyAcknowledged
  | alreadyResolved
  | notActive
deriving DecidableEq, Repr

/-- Method Acknowledge of the Alert entity.  Mirrors the source: a resolved
alert is rejected first, then an acknowledged one, then any other non-active
status; otherwise the status, the acknowledging user, the acknowledgement
time and the update time are written.  The returned pair is the Go error
result together with the receiver after the call. -/
def Alert.acknowledge (a : Alert) (userID : UserId) (now : Time) :
    Option AlertErr × Alert :=
  if a.status = AlertStatusResolved then (some .alreadyResolved, a)
  else if a.status = AlertStatusAcknowledged then (some .alreadyAcknowledged, a)
  else if a.status ≠ AlertStatusActive then (some .notActive, a)
  else
    (none, { a with
      status := AlertStatusAcknowledged
      acknowledgedBy := some userID
      acknowledgedAt := some now
      updatedAt := now })

/-- Method Resolve of the Alert entity.  The only guard in the source is the
already-resolved check; any other status (including expired) is moved to
resolved. -/
def Alert.resolve (a : Alert) (userID : UserId) (now : Time) :
    Option AlertErr × Alert :=
  if a.status = AlertStatusResolved then (some .alreadyResolved, a)
  else
    (none, { a with
      status := AlertStatusResolved
      resolvedBy := some userID
      resolvedAt := some now
      updatedAt := now })

/-- Method Expire of the Alert entity.  The source sets the status
unconditionally, with no guard on the current status, and touches the
update time. -/
def Alert.expire (a : Alert) (now : Time) : Alert :=
  { a with status := AlertStatusExpired, updatedAt := now }

/-- A concrete active alert used to instantiate the quantified theorems. -/
def sampleAlert : Alert :=
  { id := 1
    ruleId := none
    title := "High CPU"
    message := "95 percent"
    severity := "high"
    status := AlertStatusActive
    source := "web-01"
    metadata := [("region", "eu")]
    acknowledgedBy := none
    acknowledgedAt := none
    resolvedBy := none
    resolvedAt := none
    expiresAt := none
    createdAt := 0
    updatedAt := 0 }

/-- A concrete resolved alert. -/
def resolvedAlert : Alert :=
  { sampleAlert with
      status := AlertStatusResolved
      resolvedBy := some 3
      resolvedAt := some 2 }

/-- C1: Acknowledge follows the state machine: success from active writing the
acknowledging user and time; AlreadyAcknowledged from acknowledged;
AlreadyResolved from resolved; NotActive from any other non-active status;
rejections leave the alert unchanged; a second Acknowledge after a successful
one is rejected with AlreadyAcknowledged and keeps the first user. -/
theorem acknowledge_state_machine (a : Alert) (u v : UserId) (t s : Time) :
    (a.status = AlertStatusActive →
      a.acknowledge u t =
        (none, { a with
          status := AlertStatusAcknowledged
          acknowledgedBy := some u
          acknowledgedAt := some t
          updatedAt := t })) ∧
    (a.status = AlertStatusAcknowledged →
      a.acknowledge u t = (some .alreadyAcknowledged, a)) ∧
    (a.status = AlertStatusResolved →
      a.acknowledge u t = (some .alreadyResolved, a)) ∧
    (a.status ≠ AlertStatusActive → a.status ≠ AlertStatusAcknowledged →
      a.status ≠ AlertStatusResolved →
      a.acknowledge u t = (some .notActive, a)) ∧
    (a.status = AlertStatusActive →
      ((a.acknowledge u t).2.acknowledge v s).1 = some .alreadyAcknowledged ∧
      ((a.acknowledge u t).2.acknowledge v s).2 = (a.acknowledge u t).2 ∧
      ((a.acknowledge u t).2.acknowledge v s).2.acknowledgedBy = some u) := by
  refine ⟨?_, ?_, ?_, ?_, ?_⟩ <;> intro h
  · simp only [Alert.acknowledge, h]
    simp [AlertStatusActive, AlertStatusResolved, AlertStatusAcknowledged]
  · simp only [Alert.acknowledge, h]
    simp [AlertStatusResolved, AlertStatusAcknowledged]
  · simp [Alert.acknowledge, h]
  · intro h2 h3
    simp [Alert.acknowledge, h, h2, h3]
  · simp only [Alert.acknowledge, h]
    simp [AlertStatusActive, AlertStatusResolved, AlertStatusAcknowledged]

/-- Witness for C1 at a concrete active alert. -/
theorem acknowledge_state_machine_witness :
    sampleAlert.acknowledge 7 5 =
      (none, { sampleAlert with
        status := AlertStatusAcknowledged
        acknowledgedBy := some 7
        acknowledgedAt := some 5
        updatedAt := 5 }) ∧
    ((sampleAlert.acknowledge 7 5).2.acknowledge 8 6).1 =
      some .alreadyAcknowledged ∧
    ((sampleAlert.acknowledge 7 5).2.acknowledge 8 6).2.acknowledgedBy =
      some 7 :=
  ⟨(acknowledge_state_machine sampleAlert 7 8 5 6).1 rfl,
   ((acknowledge_state_machine sampleAlert 7 8 5 6).2.2.2.2 rfl).1,
   ((acknowledge_state_machine sampleAlert 7 8 5 6).2.2.2.2 rfl).2.2⟩

/-- C2 counterexample: Expire on a resolved alert changes its status to
expired, so the resolved status is not absorbing under the lifecycle
operations as claimed. -/
theorem terminal_absorbing_cex :
    resolvedAlert.status = AlertStatusResolved ∧
    (resolvedAlert.expire 10).status ≠ resolvedAlert.status := by
  decide

/-- C2 amended: resolved is absorbing for Acknowledge and Resolve (both
reject, Resolve idempotently with AlreadyResolved, leaving the alert
unchanged), and expired rejects Acknowledge with NotActive unchanged; but
Resolve on an expired alert succeeds and moves it to resolved, and Expire
unconditionally marks any alert expired, including a resolved one. -/
theorem terminal_states_amended (a : Alert) (u : UserId) (t : Time) :
    (a.status = AlertStatusResolved →
      a.acknowledge u t = (some .alreadyResolved, a) ∧
      a.resolve u t = (some .alreadyResolved, a)) ∧
    (a.status = AlertStatusExpired →
      a.acknowledge u t = (some .notActive, a) ∧
      (a.resolve u t).1 = none ∧
      (a.resolve u t).2.status = AlertStatusResolved) ∧
    (a.expire t).status = AlertStatusExpired := by
  refine ⟨?_, ?_, ?_⟩
  · intro h
    constructor
    · simp [Alert.acknowledge, h]
    · simp [Alert.resolve, h]
  · intro h
    refine ⟨?_, ?_, ?_⟩
    · simp only [Alert.acknowledge, h]
      simp [AlertStatusActive, AlertStatusResolved, AlertStatusAcknowledged,
        AlertStatusExpired]
    · simp only [Alert.resolve, h]
      simp [AlertStatusResolved, AlertStatusExpired]
    · simp only [Alert.resolve, h]
      simp [AlertStatusResolved, AlertStatusExpired]
  · simp [Alert.expire]

/-- Witness for the amended C2 at a concrete resolved alert. -/
theorem terminal_states_amended_witness :
    resolvedAlert.resolve 9 4 = (some .alreadyResolved, resolvedAlert) ∧
    resolvedAlert.acknowledge 9 4 = (some .alreadyResolved, resolvedAlert) :=
  ⟨((terminal_states_amended resolvedAlert 9 4).1 rfl).2,
   ((terminal_states_amended resolvedAlert 9 4).1 rfl).1⟩

/-- C10: frame condition of the lifecycle mutators: a successful Acknowledge
writes exactly status, acknowledged-by, acknowledged-at and updated-at; a
successful Resolve writes exactly status, resolved-by, resolved-at and
updated-at; all other fields, including the acknowledgement fields under
Resolve, are preserved. -/
theorem lifecycle_frame_condition (a : Alert) (u : UserId) (t : Time) :
    ((a.acknowledge u t).1 = none →
      (a.acknowledge u t).2 = { a with
        status := AlertStatusAcknowledged
        acknowledgedBy := some u
        acknowledgedAt := some t
        updatedAt := t }) ∧
    ((a.resolve u t).1 = none →
      (a.resolve u t).2 = { a with
        status := AlertStatusResolved
        resolvedBy := some u
        resolvedAt := some t
        updatedAt := t }) := by
  constructor
  · intro h
    unfold Alert.acknowledge at *
    split_ifs at h ⊢ with h1 h2 h3 <;> simp_all
  · intro h
    unfold Alert.resolve at *
    split_ifs at h ⊢ with h1 <;> simp_all

/-- Witness for C10: a successful Resolve of an acknowledged alert keeps the
acknowledgement attribution. -/
theorem lifecycle_frame_condition_witness :
    ((sampleAlert.acknowledge 7 5).2.resolve 9 6).2 =
      { sampleAlert with
        status := AlertStatusResolved
        acknowledgedBy := some 7
        acknowledgedAt := some 5
        resolvedBy := some 9
        resolvedAt := some 6
        updatedAt := 6 } := by
  have h := (lifecycle_frame_condition ((sampleAlert.acknowledge 7 5).2) 9 6).2
    (by decide)
  rw [h]
  decide

/-! ### Event envelope and Redis-stream bus
(internal/domain/event/event.go, internal/infrastructure/messaging/redis_stream.go)

A Redis stream message carries a map from string keys to arbitrary values.
Interface values are modelled by RValue; an unchecked Go type assertion to
string on a missing or non-string value panics, which the embedding records
with the Panicked outcome.  The Go call time.Parse with the RFC3339Nano
layout is a library call modelled by an explicit parse-function parameter. -/

/-- Value stored in a Redis stream message map (a Go interface value). -/
inductive RValue where
  | str (s : String)
  | int (n : Int)
  | other
deriving DecidableEq, Repr

/-- Message field map as delivered by XReadGroup. -/
abbrev RMap := List (String × RValue)

/-- Outcome of a Go computation that may panic. -/
inductive GoResult (α : Type) where
  | ok (a : α)
  | panicked
deriving DecidableEq, Repr

/-- Event struct of the source: id, type, payload bytes, timestamp,
version and retry counter. -/
structure Event where
  id : String
  type : String
  payload : String
  timestamp : Time
  version : Int
  retries : Int
deriving DecidableEq, Repr

/-- Stream name constant StreamAlerts. -/
def StreamAlerts : String := "alerts"

/-- Stream name constant StreamNotifications. -/
def StreamNotifications : String := "notifications"

/-- Stream name constant StreamDeadLetter. -/
def StreamDeadLetter : String := "dead-letter"

/-- Method getStreamForEventType of RedisStreamBus: alert events route to
the alerts stream, user events to the notifications stream, anything else
to the alerts stream. -/
def getStreamForEventType (t : String) : String :=
  if t = "alert.created" ∨ t = "alert.acknowledged" ∨ t = "alert.resolved" ∨
      t = "alert.deleted" ∨ t = "alert.expired" then StreamAlerts
  else if t = "user.created" ∨ t = "user.updated" then StreamNotifications
  else StreamAlerts

/-- Model of fmt.Sscanf with a single integer verb: an optional sign
followed by at least one digit is parsed from the front of the string;
anything else fails. -/
def goScanInt (s : String) : Option Int :=
  let parseDigits : List Char → Option Nat := fun cs =>
    let ds := cs.takeWhile Char.isDigit
    if ds.isEmpty then none
    else some (ds.foldl (fun acc c => acc * 10 + (c.toNat - 48)) 0)
  match s.toList with
  | '-' :: rest => (parseDigits rest).map (fun n => -(n : Int))
  | '+' :: rest => (parseDigits rest).map (fun n => (n : Int))
  | rest => (parseDigits rest).map (fun n => (n : Int))

/-- Tolerant integer-field read used by FromMap for version and retries: a
present int value is taken as is, a present string value is scanned, and
anything else (absent key, scan failure, other type) yields the default. -/
def intFieldOr (data : RMap) (key : String) (dflt : Int) : Int :=
  match List.lookup key data with
  | some (.int n) => n
  | some (.str s) =>
    match goScanInt s with
    | some n => n
    | none => dflt
  | _ => dflt

/-- Function FromMap of the event package.  The source asserts the
timestamp, id, type and payload values to string without a checked cast, so
a missing or non-string value panics; only a timestamp string rejected by
time.Parse produces an error return.  The version and retries fields are
read tolerantly with defaults 1 and 0. -/
def FromMap (timeParse : String → Option Time) (data : RMap) :
    GoResult (Except Unit Event) :=
  match List.lookup "timestamp" data with
  | some (.str ts) =>
    match timeParse ts with
    | none => .ok (.error ())
    | some t =>
      let version := intFieldOr data "version" 1
      let retries := intFieldOr data "retries" 0
      match List.lookup "id" data, List.lookup "type" data,
          List.lookup "payload" data with
      | some (.str i), some (.str ty), some (.str pl) =>
        .ok (.ok { id := i, type := ty, payload := pl, timestamp := t,
                   version := version, retries := retries })
      | _, _, _ => .panicked
  | _ => .panicked

/-- Observable actions the bus issues against Redis while processing a
message: XAdd of an event to a stream, and XAck of a message id. -/
inductive BusAction where
  | publish (stream : String) (evt : Event)
  | ack (stream group msgId : String)
deriving DecidableEq, Repr

/-- Method handleFailedEvent of RedisStreamBus: the retry counter is
incremented first; with the incremented counter at three or more the event
is published to the dead-letter stream, otherwise it is re-published to the
stream derived from its type. -/
def handleFailedEvent (evt : Event) : List BusAction :=
  let evt := { evt with retries := evt.retries + 1 }
  if 3 ≤ evt.retries then [.publish StreamDeadLetter evt]
  else [.publish (getStreamForEventType evt.type) evt]

/-- Method processMessage of RedisStreamBus.  A message that fails envelope
parsing is acknowledged and dropped; a message whose handler fails goes
through handleFailedEvent and is then acknowledged; a message whose handler
succeeds is acknowledged.  A parse panic propagates (crashing the consumer
goroutine).  The handler is modelled as a function returning an error
option. -/
def processMessage (timeParse : String → Option Time)
    (handler : Event → Option Unit) (stream group msgId : String)
    (values : RMap) : GoResult (List BusAction) :=
  match FromMap timeParse values with
  | .panicked => .panicked
  | .ok (.error _) => .ok [.ack stream group msgId]
  | .ok (.ok evt) =>
    match handler evt with
    | some _ => .ok (handleFailedEvent evt ++ [.ack stream group msgId])
    | none => .ok [.ack stream group msgId]

/-- Redelivery loop of a single event under a handler that always fails:
each delivery runs handleFailedEvent on the delivered copy; a copy
re-published to its originating stream is delivered again, while a copy
published to the dead-letter stream stops the loop.  Returns the number of
handler invocations together with the copy that reached dead-letter.  The
fuel bounds the recursion. -/
def alwaysFailDeliveries : Nat → Event → Nat × Option Event
  | 0, _ => (0, none)
  | fuel + 1, evt =>
    match handleFailedEvent evt with
    | [BusAction.publish s e] =>
      if s = StreamDeadLetter then (1, some e)
      else
        let r := alwaysFailDeliveries fuel e
        (r.1 + 1, r.2)
    | _ => (0, none)

/-- The stream derived from an event type is never the dead-letter stream. -/
theorem getStream_ne_deadletter (t : String) :
    getStreamForEventType t ≠ StreamDeadLetter := by
  unfold getStreamForEventType
  split_ifs <;> decide

/-- A concrete event as published by the service, with a fresh retry
counter. -/
def sampleEvent : Event :=
  { id := "ev-1", type := "alert.created", payload := "p",
    timestamp := 0, version := 1, retries := 0 }

/-- C3: on handler failure the bus increments the retry counter, then
re-publishes to the originating (type-derived) stream while the counter is
below three and publishes to dead-letter once it reaches three; every
processed message ends with an acknowledgment; an event with a fresh
counter whose handler always fails reaches dead-letter with counter three
after exactly three handler invocations. -/
theorem bus_retry_and_dlq (tp : String → Option Time)
    (h : Event → Option Unit) (stream group msgId : String) (values : RMap)
    (evt : Event) (fuel : Nat) :
    (evt.retries + 1 < 3 →
      handleFailedEvent evt =
        [.publish (getStreamForEventType evt.type)
          { evt with retries := evt.retries + 1 }]) ∧
    (3 ≤ evt.retries + 1 →
      handleFailedEvent evt =
        [.publish StreamDeadLetter { evt with retries := evt.retries + 1 }]) ∧
    (∀ acts, processMessage tp h stream group msgId values = .ok acts →
      acts.getLast? = some (.ack stream group msgId)) ∧
    (evt.retries = 0 → 3 ≤ fuel →
      alwaysFailDeliveries fuel evt = (3, some { evt with retries := 3 })) := by
  have hstep : ∀ (e : Event) (f : Nat), ¬ 3 ≤ e.retries + 1 →
      alwaysFailDeliveries (f + 1) e =
        ((alwaysFailDeliveries f { e with retries := e.retries + 1 }).1 + 1,
         (alwaysFailDeliveries f { e with retries := e.retries + 1 }).2) := by
    intro e f hlt
    have hne := getStream_ne_deadletter e.type
    simp [alwaysFailDeliveries, handleFailedEvent, hlt, hne]
  have hfin : ∀ (e : Event) (f : Nat), 3 ≤ e.retries + 1 →
      alwaysFailDeliveries (f + 1) e =
        (1, some { e with retries := e.retries + 1 }) := by
    intro e f hge
    simp [alwaysFailDeliveries, handleFailedEvent, hge]
  refine ⟨?_, ?_, ?_, ?_⟩
  · intro hlt
    simp [handleFailedEvent, (by omega : ¬ 3 ≤ evt.retries + 1)]
    exact fun hge => absurd hge (by omega)
  · intro hge
    simp [handleFailedEvent, hge]
  · intro acts hacts
    unfold processMessage at hacts
    split at hacts
    · exact absurd hacts (by simp)
    · cases hacts
      rfl
    · split at hacts
      · cases hacts
        exact List.getLast?_concat _
      · cases hacts
        rfl
  · intro h0 hf
    obtain ⟨f, rfl⟩ : ∃ f, fuel = f + 3 := ⟨fuel - 3, by omega⟩
    have e3 : f + 3 = (f + 2) + 1 := rfl
    have e2 : f + 2 = (f + 1) + 1 := rfl
    rw [e3, hstep evt (f + 2) (by omega), h0]
    rw [e2, hstep _ (f + 1) (by simp), hfin _ f (by simp)]
    norm_num

/-- Witness for C3: a concrete always-failing event reaches dead-letter
with retry counter three after three deliveries, and a concrete handler
failure on it re-publishes to the alerts stream with counter one. -/
theorem bus_retry_and_dlq_witness :
    alwaysFailDeliveries 3 sampleEvent =
      (3, some { sampleEvent with retries := 3 }) ∧
    handleFailedEvent sampleEvent =
      [.publish (getStreamForEventType sampleEvent.type)
        { sampleEvent with retries := sampleEvent.retries + 1 }] :=
  ⟨(bus_retry_and_dlq (fun _ => none) (fun _ => some ()) "alerts" "g" "m" []
      sampleEvent 3).2.2.2 rfl (by norm_num),
   (bus_retry_and_dlq (fun _ => none) (fun _ => some ()) "alerts" "g" "m" []
      sampleEvent 3).1 (by decide)⟩

/-- Time-parse stub that rejects every timestamp string. -/
def tpNone : String → Option Time := fun _ => none

/-- A message map lacking the timestamp field altogether. -/
def noTimestampEnvelope : RMap :=
  [("id", .str "e1"), ("type", .str "alert.created"), ("payload", .str "p")]

/-- C4 counterexample: on an envelope with no timestamp field, FromMap
panics (the source asserts the value to string without a checked cast)
instead of returning a parse error, so parsing does not return an error for
every unparseable envelope. -/
theorem envelope_parse_cex :
    FromMap tpNone noTimestampEnvelope = .panicked ∧
    FromMap tpNone noTimestampEnvelope ≠ .ok (.error ()) := by
  constructor
  · rfl
  · intro hcontra
    rw [show FromMap tpNone noTimestampEnvelope = .panicked from rfl]
      at hcontra
    exact GoResult.noConfusion hcontra

/-- C4 amended: envelope parsing returns an error exactly when the
timestamp field is a string rejected by the time parser, and in that case
the message is acknowledged and dropped: the handler is not invoked (the
result is independent of the handler) and nothing is re-published or sent
to dead-letter; but an envelope whose timestamp is missing or non-string,
or whose id field is missing or non-string, makes parsing panic rather
than return an error. -/
theorem envelope_parse_amended (tp : String → Option Time) (data : RMap)
    (ts : String) (t : Time) (h1 h2 : Event → Option Unit)
    (stream group msgId : String) :
    (List.lookup "timestamp" data = some (.str ts) → tp ts = none →
      FromMap tp data = .ok (.error ())) ∧
    ((∀ s, List.lookup "timestamp" data ≠ some (.str s)) →
      FromMap tp data = .panicked) ∧
    (List.lookup "timestamp" data = some (.str ts) → tp ts = some t →
      (∀ s, List.lookup "id" data ≠ some (.str s)) →
      FromMap tp data = .panicked) ∧
    (FromMap tp data = .ok (.error ()) →
      processMessage tp h1 stream group msgId data =
        .ok [.ack stream group msgId] ∧
      processMessage tp h1 stream group msgId data =
        processMessage tp h2 stream group msgId data) := by
  refine ⟨?_, ?_, ?_, ?_⟩
  · intro hts htp
    unfold FromMap
    rw [hts]
    simp [htp]
  · intro hno
    unfold FromMap
    split
    · rename_i s heq
      exact absurd heq (hno s)
    · rfl
  · intro hts htp hid
    unfold FromMap
    rw [hts]
    simp only [htp]
    split
    · rename_i i ty pl heq _ _
      exact absurd heq (hid i)
    · rfl
  · intro herr
    unfold processMessage
    rw [herr]
    exact ⟨rfl, rfl⟩

/-- Witness for the amended C4: a concrete envelope whose timestamp string
is rejected by the parser yields a parse error, and the message is then
acknowledged and dropped independently of the handler. -/
theorem envelope_parse_amended_witness :
    FromMap tpNone [("timestamp", RValue.str "bad")] = .ok (.error ()) ∧
    processMessage tpNone (fun _ => some ()) "alerts" "g" "m"
      [("timestamp", RValue.str "bad")] = .ok [.ack "alerts" "g" "m"] := by
  have hthm := envelope_parse_amended tpNone
    [("timestamp", RValue.str "bad")] "bad" 0 (fun _ => some ())
    (fun _ => none) "alerts" "g" "m"
  have h1 := hthm.1 (by decide) rfl
  exact ⟨h1, (hthm.2.2.2 h1).1⟩

/-! ### Circuit breaker (internal/infrastructure/circuitbreaker/circuitbreaker.go)

Every method of the Go type acquires the breaker's lock, so canExecute and
recordResult are the atomic steps; a concurrent execution is an
interleaving of these steps.  time.Since(lastFailure) is modelled as
truncated subtraction on the explicit clock parameter. -/

/-- Breaker states closed, open and half-open (State in the source). -/
inductive CBState where
  | closed
  | opened
  | halfOpen
deriving DecidableEq, Repr

/-- Breaker configuration (Config in the source). -/
structure CBConfig where
  maxFailures : Nat
  timeout : Nat
  halfOpenRequests : Nat
deriving DecidableEq, Repr

/-- Function DefaultConfig: five failures, thirty second timeout, three
half-open requests. -/
def DefaultCBConfig : CBConfig :=
  { maxFailures := 5, timeout := 30, halfOpenRequests := 3 }

/-- Breaker record (CircuitBreaker in the source). -/
structure CircuitBreaker where
  config : CBConfig
  state : CBState
  failures : Nat
  successes : Nat
  lastFailure : Time
  halfOpenRequests : Nat
deriving DecidableEq, Repr

/-- Constructor New: a breaker starts closed with zeroed counters. -/
def newBreaker (config : CBConfig) : CircuitBreaker :=
  { config := config, state := .closed, failures := 0, successes := 0,
    lastFailure := 0, halfOpenRequests := 0 }

/-- Method toOpen. -/
def CircuitBreaker.toOpen (cb : CircuitBreaker) : CircuitBreaker :=
  { cb with state := .opened, successes := 0, halfOpenRequests := 0 }

/-- Method toHalfOpen. -/
def CircuitBreaker.toHalfOpen (cb : CircuitBreaker) : CircuitBreaker :=
  { cb with
    state := .halfOpen
    failures := 0
    successes := 0
    halfOpenRequests := 0 }

/-- Method toClosed. -/
def CircuitBreaker.toClosed (cb : CircuitBreaker) : CircuitBreaker :=
  { cb with
    state := .closed
    failures := 0
    successes := 0
    halfOpenRequests := 0 }

/-- Method canExecute: closed always admits; open admits (and moves to
half-open) once more than timeout has elapsed since the last failure;
half-open admits while the admission counter is below the configured limit,
incrementing it. -/
def CircuitBreaker.canExecute (cb : CircuitBreaker) (now : Time) :
    Bool × CircuitBreaker :=
  match cb.state with
  | .closed => (true, cb)
  | .opened =>
    if cb.config.timeout < now - cb.lastFailure then (true, cb.toHalfOpen)
    else (false, cb)
  | .halfOpen =>
    if cb.halfOpenRequests < cb.config.halfOpenRequests then
      (true, { cb with halfOpenRequests := cb.halfOpenRequests + 1 })
    else (false, cb)

/-- Method onFailure: the failure counter and last-failure time are written
first; a closed breaker opens on reaching maxFailures, a half-open breaker
opens on any failure. -/
def CircuitBreaker.onFailure (cb : CircuitBreaker) (now : Time) :
    CircuitBreaker :=
  let cb := { cb with failures := cb.failures + 1, lastFailure := now }
  match cb.state with
  | .closed =>
    if cb.config.maxFailures ≤ cb.failures then cb.toOpen else cb
  | .halfOpen => cb.toOpen
  | .opened => cb

/-- Method onSuccess: a success in closed state resets the failure counter;
in half-open it accumulates successes and closes the breaker once they
reach the half-open request limit. -/
def CircuitBreaker.onSuccess (cb : CircuitBreaker) : CircuitBreaker :=
  match cb.state with
  | .closed => { cb with failures := 0 }
  | .halfOpen =>
    let cb := { cb with successes := cb.successes + 1 }
    if cb.config.halfOpenRequests ≤ cb.successes then cb.toClosed else cb
  | .opened => cb

/-- Method recordResult. -/
def CircuitBreaker.recordResult (cb : CircuitBreaker) (now : Time)
    (failed : Bool) : CircuitBreaker :=
  if failed then cb.onFailure now else cb.onSuccess

/-- Result of Execute as seen by the caller. -/
inductive ExecOutcome where
  | circuitOpen
  | sinkFailure
  | success
deriving DecidableEq, Repr

/-- Method Execute, with the sink behaviour supplied as a parameter.  The
middle component records whether the sink was invoked. -/
def CircuitBreaker.execute (cb : CircuitBreaker) (now : Time)
    (sinkFails : Bool) : ExecOutcome × Bool × CircuitBreaker :=
  let r := cb.canExecute now
  if r.1 then
    (if sinkFails then .sinkFailure else .success, true,
     r.2.recordResult now sinkFails)
  else (.circuitOpen, false, r.2)

/-- A burst of admission checks with no results recorded in between (the
interleaving of n concurrent Execute calls that all reach canExecute before
any sink call returns).  Returns how many of the n calls were admitted,
with the breaker state after the burst. -/
def admitBurst (cb : CircuitBreaker) (now : Time) :
    Nat → Nat × CircuitBreaker
  | 0 => (0, cb)
  | n + 1 =>
    let r := cb.canExecute now
    let rest := admitBurst r.2 now n
    ((if r.1 then 1 else 0) + rest.1, rest.2)

/-- A breaker that opened after five failures, observed just past the
thirty-second timeout. -/
def openBreaker : CircuitBreaker :=
  { config := DefaultCBConfig, state := .opened, failures := 5,
    successes := 0, lastFailure := 0, halfOpenRequests := 0 }

/-- C5 counterexample: with the default configuration (halfOpenRequests
three), an open breaker past its timeout admits four concurrent calls
before any completes — the first admission performs the transition to
half-open without consuming an admission slot — and the breaker is still
half-open after all four, so more than halfOpenRequests trial calls are
admitted before the breaker leaves half-open. -/
theorem breaker_halfopen_admission_cex :
    DefaultCBConfig.halfOpenRequests = 3 ∧
    (admitBurst openBreaker 31 4).1 = 4 ∧
    (admitBurst openBreaker 31 1).2.state = CBState.halfOpen ∧
    (admitBurst openBreaker 31 4).2.state = CBState.halfOpen := by
  decide

/-- In half-open state a burst of n admission checks admits exactly the
remaining admission slots, at most n. -/
theorem admitBurst_halfOpen_count (now : Time) (n : Nat) :
    ∀ cb : CircuitBreaker, cb.state = .halfOpen →
      (admitBurst cb now n).1 =
        min n (cb.config.halfOpenRequests - cb.halfOpenRequests) := by
  induction n with
  | zero =>
    intro cb _
    simp [admitBurst]
  | succ n ih =>
    intro cb h
    by_cases hlt : cb.halfOpenRequests < cb.config.halfOpenRequests
    · have hcan : cb.canExecute now =
          (true, { cb with halfOpenRequests := cb.halfOpenRequests + 1 }) := by
        unfold CircuitBreaker.canExecute
        rw [h]
        simp [hlt]
      have hih := ih { cb with halfOpenRequests := cb.halfOpenRequests + 1 }
        (by simpa using h)
      simp [admitBurst, hcan, hih]
      omega
    · have hcan : cb.canExecute now = (false, cb) := by
        unfold CircuitBreaker.canExecute
        rw [h]
        simp [hlt]
      have hih := ih cb h
      simp [admitBurst, hcan, hih]
      omega

/-- C5 amended: once open and past the timeout, the next admission check
succeeds and performs the transition to half-open with a reset admission
counter, without consuming an admission slot; from half-open, a burst of
checks admits at most the remaining halfOpenRequests slots, so a burst
arriving just after the timeout admits at most halfOpenRequests plus one
calls in total; every rejected call returns CircuitOpen without invoking
the sink; any failure recorded in half-open reopens the breaker; once
halfOpenRequests successes accumulate the breaker closes, earlier
successes leaving it half-open while counting. -/
theorem breaker_halfopen_amended (cb : CircuitBreaker) (now : Time)
    (n : Nat) (sinkFails : Bool) :
    (cb.state = .opened → cb.config.timeout < now - cb.lastFailure →
      cb.canExecute now = (true, cb.toHalfOpen)) ∧
    (cb.state = .halfOpen →
      (admitBurst cb now n).1 =
        min n (cb.config.halfOpenRequests - cb.halfOpenRequests)) ∧
    (cb.state = .opened → cb.config.timeout < now - cb.lastFailure →
      (admitBurst cb now (n + 1)).1 =
        min (n + 1) (cb.config.halfOpenRequests + 1)) ∧
    ((cb.canExecute now).1 = false →
      cb.execute now sinkFails = (.circuitOpen, false, (cb.canExecute now).2)) ∧
    (cb.state = .halfOpen → (cb.recordResult now true).state = .opened) ∧
    (cb.state = .halfOpen → cb.config.halfOpenRequests ≤ cb.successes + 1 →
      (cb.recordResult now false).state = .closed) ∧
    (cb.state = .halfOpen → cb.successes + 1 < cb.config.halfOpenRequests →
      (cb.recordResult now false).state = .halfOpen ∧
      (cb.recordResult now false).successes = cb.successes + 1) := by
  have htrans : cb.state = .opened → cb.config.timeout < now - cb.lastFailure →
      cb.canExecute now = (true, cb.toHalfOpen) := by
    intro h ht
    unfold CircuitBreaker.canExecute
    rw [h]
    simp [ht]
  refine ⟨htrans, ?_, ?_, ?_, ?_, ?_, ?_⟩
  · exact admitBurst_halfOpen_count now n cb
  · intro h ht
    have hcount := admitBurst_halfOpen_count now n cb.toHalfOpen
      (by simp [CircuitBreaker.toHalfOpen])
    simp only [CircuitBreaker.toHalfOpen] at hcount
    simp [admitBurst, htrans h ht, CircuitBreaker.toHalfOpen, hcount]
    omega
  · intro hfalse
    simp [CircuitBreaker.execute, hfalse]
  · intro h
    simp [CircuitBreaker.recordResult, CircuitBreaker.onFailure,
      CircuitBreaker.toOpen, h]
  · intro h hge
    simp [CircuitBreaker.recordResult, CircuitBreaker.onSuccess,
      CircuitBreaker.toClosed, h, hge]
  · intro h hlt
    have hnot : ¬ cb.config.halfOpenRequests ≤ cb.successes + 1 := by omega
    simp [CircuitBreaker.recordResult, CircuitBreaker.onSuccess,
      CircuitBreaker.toClosed, h]
    constructor <;> rw [if_neg hnot]

/-- The breaker of the counterexample just after its transition check. -/
def halfOpenBreaker : CircuitBreaker := openBreaker.toHalfOpen

/-- Witness for the amended C5 at the concrete open breaker past its
timeout: the transition check admits and half-opens; a burst of five
checks admits four; a recorded failure in half-open reopens. -/
theorem breaker_halfopen_amended_witness :
    openBreaker.canExecute 31 = (true, openBreaker.toHalfOpen) ∧
    (admitBurst openBreaker 31 5).1 = 4 ∧
    (halfOpenBreaker.recordResult 31 true).state = CBState.opened :=
  ⟨(breaker_halfopen_amended openBreaker 31 4 false).1 rfl (by decide),
   (breaker_halfopen_amended openBreaker 31 4 false).2.2.1 rfl (by decide),
   (breaker_halfopen_amended halfOpenBreaker 31 4 false).2.2.2.2.1 rfl⟩

/-! ### WebSocket hub client (internal/presentation/websocket client file)

The per-client lock makes Send and Close atomic; the buffered send channel
is modelled as a list bounded by its capacity (256 in NewClient). -/

/-- Client connection state: the closed flag and the buffered outbound
channel with its capacity. -/
structure WSClient where
  closed : Bool
  sendq : List String
  sendCap : Nat
deriving DecidableEq, Repr

/-- Constructor NewClient: open, empty buffer of capacity 256. -/
def newWSClient : WSClient :=
  { closed := false, sendq := [], sendCap := 256 }

/-- Method Send: a closed client drops the message; otherwise a
non-blocking enqueue succeeds while the buffer is below capacity, and on a
full buffer the client is marked closed and the message dropped. -/
def WSClient.sendMsg (c : WSClient) (m : String) : WSClient :=
  if c.closed then c
  else if c.sendq.length < c.sendCap then { c with sendq := c.sendq ++ [m] }
  else { c with closed := true }

/-- C6: the first Send that finds the buffer full marks the client closed
and drops the message, and a closed client ignores every further Send, so
no later message is ever enqueued. -/
theorem hub_client_backpressure (c : WSClient) (m : String)
    (ms : List String) :
    (c.closed = false → c.sendq.length = c.sendCap →
      (c.sendMsg m).closed = true ∧ (c.sendMsg m).sendq = c.sendq) ∧
    (c.closed = true → c.sendMsg m = c) ∧
    (c.closed = true → ms.foldl WSClient.sendMsg c = c) := by
  have hdrop : c.closed = true → c.sendMsg m = c := by
    intro h
    simp [WSClient.sendMsg, h]
  refine ⟨?_, hdrop, ?_⟩
  · intro hopen hfull
    simp [WSClient.sendMsg, hopen, hfull]
  · intro h
    induction ms with
    | nil => rfl
    | cons x xs ih =>
      have hx : c.sendMsg x = c := by simp [WSClient.sendMsg, h]
      simp [List.foldl, hx, ih]

/-- A client whose two-slot buffer is full. -/
def fullClient : WSClient :=
  { closed := false, sendq := ["m1", "m2"], sendCap := 2 }

/-- Witness for C6 at a concrete full client: the overflowing Send closes
it and drops the message, and three further Sends change nothing. -/
theorem hub_client_backpressure_witness :
    (fullClient.sendMsg "m3").closed = true ∧
    (fullClient.sendMsg "m3").sendq = fullClient.sendq ∧
    ["m4", "m5", "m6"].foldl WSClient.sendMsg (fullClient.sendMsg "m3") =
      fullClient.sendMsg "m3" :=
  ⟨((hub_client_backpressure fullClient "m3" []).1 rfl rfl).1,
   ((hub_client_backpressure fullClient "m3" []).1 rfl rfl).2,
   (hub_client_backpressure (fullClient.sendMsg "m3") "x"
      ["m4", "m5", "m6"]).2.2
     ((hub_client_backpressure fullClient "m3" []).1 rfl rfl).1⟩

/-! ### Alert repository queries
(internal/infrastructure/database/alert_repository.go)

The alerts table is modelled as a list of Alert rows; a SQL query is the
corresponding list transformation. -/

/-- WHERE clause of the ListExpired query: status NOT IN (resolved,
expired), expires_at IS NOT NULL, expires_at before now. -/
def listExpiredWhere (now : Time) (a : Alert) : Bool :=
  (a.status ≠ AlertStatusResolved && a.status ≠ AlertStatusExpired) &&
    match a.expiresAt with
    | some t => t < now
    | none => false

/-- Method ListExpired: the rows satisfying the WHERE clause. -/
def ListExpired (db : List Alert) (now : Time) : List Alert :=
  db.filter (listExpiredWhere now)

/-- An acknowledged alert whose expiry has passed. -/
def ackExpiredAlert : Alert :=
  { sampleAlert with
      status := AlertStatusAcknowledged
      acknowledgedBy := some 7
      acknowledgedAt := some 5
      expiresAt := some 5 }

/-- C7 counterexample: ListExpired returns an acknowledged alert with a
past expiry, so the result is not restricted to active alerts. -/
theorem list_expired_cex :
    ackExpiredAlert ∈ ListExpired [ackExpiredAlert] 10 ∧
    ackExpiredAlert.status ≠ AlertStatusActive := by
  decide

/-- C7 amended: ListExpired returns exactly the stored alerts whose status
is neither resolved nor expired — so acknowledged alerts qualify alongside
active ones — and whose expiry time is set and earlier than now. -/
theorem list_expired_amended (db : List Alert) (now : Time) (a : Alert) :
    a ∈ ListExpired db now ↔
      a ∈ db ∧ a.status ≠ AlertStatusResolved ∧
        a.status ≠ AlertStatusExpired ∧
        ∃ t, a.expiresAt = some t ∧ t < now := by
  unfold ListExpired
  rw [List.mem_filter]
  unfold listExpiredWhere
  constructor
  · rintro ⟨hmem, hp⟩
    refine ⟨hmem, ?_⟩
    cases hexp : a.expiresAt with
    | none => rw [hexp] at hp; simp at hp
    | some t =>
      rw [hexp] at hp
      simp at hp
      obtain ⟨⟨h1, h2⟩, h3⟩ := hp
      exact ⟨h1, h2, t, rfl, h3⟩
  · rintro ⟨hmem, hs1, hs2, t, hexp, hlt⟩
    refine ⟨hmem, ?_⟩
    rw [hexp]
    simp [hs1, hs2, hlt]

/-- Witness for the amended C7: the acknowledged alert with past expiry is
in the result by the right-to-left direction. -/
theorem list_expired_amended_witness :
    ackExpiredAlert ∈ ListExpired [ackExpiredAlert] 10 :=
  (list_expired_amended [ackExpiredAlert] 10 ackExpiredAlert).mpr
    ⟨by decide, by decide, by decide, 5, by decide, by decide⟩

/-- Rows of the severity aggregation of GetStatistics: group all alerts by
severity and count each group. -/
def bySeverityRows (db : List Alert) : List (String × Nat) :=
  ((db.map (fun a => a.severity)).dedup).map
    (fun s => (s, (db.filter (fun a => a.severity == s)).length))

/-- Rows of the source aggregation of GetStatistics: restrict to rows with
a non-empty source, then group by source and count each group.  The query
has no ordering and no row limit. -/
def bySourceRows (db : List Alert) : List (String × Nat) :=
  let rows := db.filter (fun a => a.source != "")
  ((rows.map (fun a => a.source)).dedup).map
    (fun s => (s, (rows.filter (fun a => a.source == s)).length))

/-- An alert row with the given id and source. -/
def srcAlert (i : Nat) (s : String) : Alert :=
  { sampleAlert with id := i, source := s }

/-- A database with eleven distinct non-empty sources. -/
def elevenSourcesDb : List Alert :=
  [srcAlert 0 "s0", srcAlert 1 "s1", srcAlert 2 "s2", srcAlert 3 "s3",
   srcAlert 4 "s4", srcAlert 5 "s5", srcAlert 6 "s6", srcAlert 7 "s7",
   srcAlert 8 "s8", srcAlert 9 "s9", srcAlert 10 "sa"]

/-- C8 counterexample: on a database with eleven distinct non-empty
sources the by-source aggregation returns eleven entries, so the map is
not limited to the top ten sources. -/
theorem stats_by_source_cex :
    (bySourceRows elevenSourcesDb).length = 11 ∧
    ¬ (bySourceRows elevenSourcesDb).length ≤ 10 := by
  decide

/-- C8 amended: the by-source aggregation excludes the empty source but
applies no top-ten ranking or truncation: it has one entry per distinct
non-empty source of the database, carrying that source's alert count, and
every non-empty source present in the database appears; the by-severity
aggregation groups all alerts by severity with their counts. -/
theorem stats_grouping_amended (db : List Alert) (s : String) (n : Nat) :
    ((s, n) ∈ bySourceRows db →
      s ≠ "" ∧ n = (db.filter (fun a => a.source == s)).length) ∧
    ((∃ a ∈ db, a.source = s) → s ≠ "" →
      (s, (db.filter (fun a => a.source == s)).length) ∈ bySourceRows db) ∧
    ((s, n) ∈ bySeverityRows db →
      n = (db.filter (fun a => a.severity == s)).length) ∧
    ((∃ a ∈ db, a.severity = s) →
      (s, (db.filter (fun a => a.severity == s)).length) ∈
        bySeverityRows db) := by
  have hfil : ∀ t : String, t ≠ "" →
      (db.filter (fun a => a.source != "")).filter (fun a => a.source == t) =
        db.filter (fun a => a.source == t) := by
    intro t ht
    rw [List.filter_filter]
    apply List.filter_congr
    intro a _
    by_cases hs : a.source = t
    · simp [hs, ht]
    · simp [hs]
  refine ⟨?_, ?_, ?_, ?_⟩
  · intro hmem
    unfold bySourceRows at hmem
    simp only [List.mem_map] at hmem
    obtain ⟨k, hk, hkeq⟩ := hmem
    cases hkeq
    rw [List.mem_dedup, List.mem_map] at hk
    obtain ⟨a, ha, hak⟩ := hk
    rw [List.mem_filter] at ha
    have hne : s ≠ "" := by
      intro hcon
      rw [hcon] at hak
      rw [hak] at ha
      simp at ha
    exact ⟨hne, by rw [hfil s hne]⟩
  · rintro ⟨a, ha, has⟩ hne
    unfold bySourceRows
    simp only [List.mem_map]
    refine ⟨s, ?_, by rw [hfil s hne]⟩
    rw [List.mem_dedup, List.mem_map]
    exact ⟨a, List.mem_filter.mpr ⟨ha, by simp [has, hne]⟩, has⟩
  · intro hmem
    unfold bySeverityRows at hmem
    simp only [List.mem_map] at hmem
    obtain ⟨k, hk, hkeq⟩ := hmem
    cases hkeq
    rfl
  · rintro ⟨a, ha, has⟩
    unfold bySeverityRows
    simp only [List.mem_map]
    refine ⟨s, ?_, rfl⟩
    rw [List.mem_dedup, List.mem_map]
    exact ⟨a, ha, has⟩

/-- Witness for the amended C8 on the eleven-source database: source s0 is
present with count one, and its entry indeed appears. -/
theorem stats_grouping_amended_witness :
    ("s0",
      (elevenSourcesDb.filter (fun a => a.source == "s0")).length) ∈
      bySourceRows elevenSourcesDb :=
  (stats_grouping_amended elevenSourcesDb "s0" 1).2.1
    ⟨srcAlert 0 "s0", by decide, by decide⟩ (by decide)

/-! ### Pagination value object (internal/domain/valueobject/pagination.go)

Go ints are modelled as integers; Go integer division and remainder
truncate toward zero, which is Int.tdiv and Int.tmod. -/

/-- Pagination constants of the source. -/
def DefaultPage : Int := 1

/-- Default page size constant. -/
def DefaultPageSize : Int := 20

/-- Maximum page size constant. -/
def MaxPageSize : Int := 100

/-- Minimum page size constant. -/
def MinPageSize : Int := 1

/-- Pagination value object. -/
structure Pagination where
  page : Int
  pageSize : Int
deriving DecidableEq, Repr

/-- Method normalize: page below one becomes the default page; page size
below the minimum becomes the default page size; page size above the
maximum is capped. -/
def Pagination.normalize (p : Pagination) : Pagination :=
  let p := if p.page < 1 then { p with page := DefaultPage } else p
  let p :=
    if p.pageSize < MinPageSize then { p with pageSize := DefaultPageSize }
    else p
  if p.pageSize > MaxPageSize then { p with pageSize := MaxPageSize } else p

/-- Constructor NewPagination: build then normalize. -/
def NewPagination (page pageSize : Int) : Pagination :=
  Pagination.normalize { page := page, pageSize := pageSize }

/-- Method Offset. -/
def Pagination.offset (p : Pagination) : Int := (p.page - 1) * p.pageSize

/-- Method TotalPages: zero for a zero total, otherwise truncated division
rounded up when a remainder is left. -/
def Pagination.totalPages (p : Pagination) (totalItems : Int) : Int :=
  if totalItems = 0 then 0
  else
    let pages := Int.tdiv totalItems p.pageSize
    if 0 < Int.tmod totalItems p.pageSize then pages + 1 else pages

/-- Truncated integer division of naturals agrees with natural division. -/
theorem int_tdiv_coe (m k : Nat) :
    Int.tdiv (m : Int) (k : Int) = ((m / k : Nat) : Int) := rfl

/-- Truncated integer remainder of naturals agrees with the natural one. -/
theorem int_tmod_coe (m k : Nat) :
    Int.tmod (m : Int) (k : Int) = ((m % k : Nat) : Int) := rfl

/-- Rounding a division up by adding one on a positive remainder is the
ceiling division (n + s - 1) / s. -/
theorem nat_div_ceil_eq (n s : Nat) (hs : 0 < s) :
    (if 0 < n % s then n / s + 1 else n / s) = (n + s - 1) / s := by
  have hmod := Nat.mod_lt n hs
  have hdm := Nat.div_add_mod n s
  by_cases h : 0 < n % s
  · rw [if_pos h]
    have hexp : s * (n / s + 1) = s * (n / s) + s := by ring
    have hns : n + s - 1 = s * (n / s + 1) + (n % s - 1) := by
      rw [hexp]
      omega
    have hz : (n % s - 1) / s = 0 := Nat.div_eq_of_lt (by omega)
    rw [hns, Nat.mul_add_div hs, hz, Nat.add_zero]
  · rw [if_neg h]
    have hns : n + s - 1 = s * (n / s) + (s - 1) := by omega
    have hz : (s - 1) / s = 0 := Nat.div_eq_of_lt (by omega)
    rw [hns, Nat.mul_add_div hs, hz, Nat.add_zero]

/-- C9: the constructed pagination satisfies Offset = (page - 1) * size;
TotalPages of a non-negative total n is the ceiling (n + s - 1) / s, and
TotalPages of zero is zero; normalization turns a page size below one into
twenty, caps a page size above one hundred at one hundred, and raises a
page below one to one, leaving in-range values untouched. -/
theorem pagination_laws (page pageSize : Int) (n : Nat) :
    ((NewPagination page pageSize).offset =
      ((NewPagination page pageSize).page - 1) *
        (NewPagination page pageSize).pageSize) ∧
    ((NewPagination page pageSize).totalPages (n : Int) =
      (((n + ((NewPagination page pageSize).pageSize).toNat - 1) /
        ((NewPagination page pageSize).pageSize).toNat : Nat) : Int)) ∧
    ((NewPagination page pageSize).totalPages 0 = 0) ∧
    (pageSize < 1 → (NewPagination page pageSize).pageSize = 20) ∧
    (100 < pageSize → (NewPagination page pageSize).pageSize = 100) ∧
    (page < 1 → (NewPagination page pageSize).page = 1) ∧
    (1 ≤ page → (NewPagination page pageSize).page = page) ∧
    1 ≤ (NewPagination page pageSize).page ∧
    1 ≤ (NewPagination page pageSize).pageSize ∧
    (NewPagination page pageSize).pageSize ≤ 100 := by
  have hform : ∀ q : Pagination, q.normalize =
      { page := if q.page < 1 then 1 else q.page,
        pageSize := if q.pageSize < 1 then 20
          else if 100 < q.pageSize then 100 else q.pageSize } := by
    intro q
    unfold Pagination.normalize
    unfold DefaultPage DefaultPageSize MaxPageSize MinPageSize
    by_cases h1 : q.page < 1 <;> by_cases h2 : q.pageSize < 1 <;>
      by_cases h3 : 100 < q.pageSize <;> simp [h1, h2, h3] <;> omega
  have hnp : NewPagination page pageSize =
      { page := if page < 1 then 1 else page,
        pageSize := if pageSize < 1 then 20
          else if 100 < pageSize then 100 else pageSize } := by
    unfold NewPagination
    rw [hform]
  have hs1 : 1 ≤ (NewPagination page pageSize).pageSize := by
    rw [hnp]
    dsimp only
    split_ifs <;> omega
  have hs100 : (NewPagination page pageSize).pageSize ≤ 100 := by
    rw [hnp]
    dsimp only
    split_ifs <;> omega
  have hp1 : 1 ≤ (NewPagination page pageSize).page := by
    rw [hnp]
    dsimp only
    split_ifs <;> omega
  have hsnat : (NewPagination page pageSize).pageSize =
      ((((NewPagination page pageSize).pageSize).toNat : Nat) : Int) :=
    (Int.toNat_of_nonneg (by omega)).symm
  have hpos : 0 < ((NewPagination page pageSize).pageSize).toNat := by omega
  refine ⟨rfl, ?_, ?_, ?_, ?_, ?_, ?_, hp1, hs1, hs100⟩
  · unfold Pagination.totalPages
    by_cases hn : n = 0
    · subst hn
      have hz : (0 + ((NewPagination page pageSize).pageSize).toNat - 1) /
          ((NewPagination page pageSize).pageSize).toNat = 0 :=
        Nat.div_eq_of_lt (by omega)
      have hc : ((0 : Nat) : Int) = 0 := by norm_num
      rw [hc, if_pos rfl, hz, Nat.cast_zero]
    · rw [if_neg (by exact_mod_cast hn)]
      obtain ⟨T, hT⟩ : ∃ T : Nat,
          (NewPagination page pageSize).pageSize = (T : Int) :=
        ⟨((NewPagination page pageSize).pageSize).toNat, hsnat⟩
      rw [hT, Int.toNat_natCast, int_tdiv_coe, int_tmod_coe]
      have hT1 : (1 : Int) ≤ (T : Int) := hT ▸ hs1
      have hTpos : 0 < T := by exact_mod_cast hT1
      rw [← nat_div_ceil_eq n T hTpos]
      dsimp only
      by_cases hm : 0 < n % T
      · rw [if_pos hm, if_pos (by exact_mod_cast hm)]
        push_cast
        ring
      · rw [if_neg hm, if_neg (by exact_mod_cast hm)]
  · unfold Pagination.totalPages
    rw [if_pos rfl]
  · intro h
    rw [hnp]
    dsimp only
    split_ifs <;> omega
  · intro h
    rw [hnp]
    dsimp only
    split_ifs <;> omega
  · intro h
    rw [hnp]
    dsimp only
    split_ifs <;> omega
  · intro h
    rw [hnp]
    dsimp only
    split_ifs <;> omega

/-- Witness for C9 at concrete out-of-range requests. -/
theorem pagination_laws_witness :
    (NewPagination 0 0).pageSize = 20 ∧
    (NewPagination 0 0).page = 1 ∧
    (NewPagination 3 500).pageSize = 100 ∧
    (NewPagination 3 500).page = 3 ∧
    (NewPagination 0 0).totalPages 45 =
      (((45 + ((NewPagination 0 0).pageSize).toNat - 1) /
        ((NewPagination 0 0).pageSize).toNat : Nat) : Int) :=
  ⟨(pagination_laws 0 0 45).2.2.2.1 (by decide),
   (pagination_laws 0 0 45).2.2.2.2.2.1 (by decide),
   (pagination_laws 3 500 45).2.2.2.2.1 (by decide),
   (pagination_laws 3 500 45).2.2.2.2.2.2.1 (by decide),
   (pagination_laws 0 0 45).2.1⟩

end AlertCore
